import Mathlib

/-!
Shallow embedding of the auth/session UI logic of the AIChatbotProject
frontend: the App startup session gate (src/App.js), the session-aware
Header and its whoami fetch (src/components/Header.jsx, session-aware
variant), the legacy Header (src/components/Header.jsx, legacy variant),
the AuthActions logout/unlink component (src/components/AuthActions.jsx)
and the standalone route table (src/routes/Router.jsx).

Network interactions are modelled by an explicit fetch-outcome datatype
(resolved response with status/ok flag and an optionally-parsable JSON
body, or a thrown rejection); handlers become pure functions from a fetch
outcome to the resulting component state, or to a trace of observable
events (requests issued, callbacks invoked, storage cleared, navigations).
-/

namespace AIChatbot

/-! ### JavaScript string primitives used by the components -/

/-- Truthiness of a JS string-or-undefined value (`process.env.X`):
`undefined` and the empty string are falsy, every other string truthy. -/
def jsTruthyStr : Option String → Bool
  | none => false
  | some s => !s.isEmpty

/-- The effect of the JS expression `s.replace(/\/+$/, "")`:
drop every trailing slash character of `s`. -/
def stripTrailingSlashes (s : String) : String :=
  String.mk ((s.toList.reverse.dropWhile (fun c => c == '/')).reverse)

/-- Whether a string ends in a slash character (observer used to state
that the stripped bases carry no trailing slash). -/
def hasTrailingSlash (s : String) : Bool :=
  match s.toList.reverse.head? with
  | none => false
  | some c => c == '/'

/-- The effect of JS `s.trim()`: drop whitespace at both ends. -/
def jsTrim (s : String) : String :=
  String.mk (((s.toList.dropWhile Char.isWhitespace).reverse.dropWhile
    Char.isWhitespace).reverse)

/-- The effect of JS `s.charAt(0)`: a one-character string holding the
first character, or the empty string when `s` is empty. -/
def charAt0 (s : String) : String :=
  match s.toList with
  | [] => ""
  | c :: _ => String.mk [c]

/-- Whether the second character list starts with the first one. -/
def startsWithChars : List Char → List Char → Bool
  | [], _ => true
  | _ :: _, [] => false
  | a :: as, b :: bs => a == b && startsWithChars as bs

/-- Whether string `s` ends with string `t` (JS `s.endsWith(t)`),
computed on the underlying character lists. -/
def strEndsWith (s t : String) : Bool :=
  startsWithChars t.toList.reverse s.toList.reverse

/-- Splitting a character list at slash characters, accumulating the
current segment in reverse; mirrors the behaviour of splitting a path
string on `/`. -/
def splitSegsAux : List Char → List Char → List String
  | [], acc => [String.mk acc.reverse]
  | c :: cs, acc =>
      if c == '/' then String.mk acc.reverse :: splitSegsAux cs []
      else splitSegsAux cs (c :: acc)

/-- The slash-separated segments of a path or pattern string. -/
def splitSegs (s : String) : List String :=
  splitSegsAux s.toList []

/-! ### API_BASE resolution (one expression per component) -/

/-- Deployed backend default used by both Header variants and AuthActions,
and by App when the page is served from github.io. -/
def renderBase : String := "https://aichatbotproject.onrender.com"

/-- Local backend default used by App outside github.io. -/
def localBase : String := "http://localhost:8000"

/-- API_BASE of the legacy Header (src/components/Header.jsx line 5):
the JS expression `process.env.REACT_APP_API_BASE || renderBase`.
The environment value is used verbatim, with no slash stripping. -/
def headerLegacyApiBase (env : Option String) : String :=
  match env with
  | some s => if !s.isEmpty then s else renderBase
  | none => renderBase

/-- API_BASE of AuthActions (src/components/AuthActions.jsx lines 5-8):
the JS expression
`(env && env.replace(/\/+$/, "")) || renderBase`.
A falsy env, and an env that strips to the empty string, fall back to the
deployed default; otherwise the stripped env value is used. -/
def authActionsApiBase (env : Option String) : String :=
  match env with
  | some s =>
      if !s.isEmpty then
        let t := stripTrailingSlashes s
        if !t.isEmpty then t else renderBase
      else renderBase
  | none => renderBase

/-- API_BASE of the session-aware Header (part_000 lines 15-18): the
identical JS expression as in AuthActions, embedded as the same
function. -/
def sessionHeaderApiBase (env : Option String) : String :=
  authActionsApiBase env

/-- API_BASE of App (part_001 lines 49-54): the JS expression
`(env || (window defined and hostname ends in github.io ? renderBase
: localBase)).replace(/\/+$/, "")`. `hostname = none` models an
undefined `window`; stripping applies to the whole resolved value. -/
def appApiBase (env : Option String) (hostname : Option String) : String :=
  let dflt : String :=
    match hostname with
    | some h => if strEndsWith h "github.io" then renderBase else localBase
    | none => localBase
  let base : String :=
    match env with
    | some s => if !s.isEmpty then s else dflt
    | none => dflt
  stripTrailingSlashes base

/-! ### App startup session check (part_001, App, lines 61-75) -/

/-- Parsed body of a `/auth/session` response: `ok` holds the JS
truthiness of the body's `ok` field (`false` when the field is absent
or falsy). -/
structure SessionBody where
  ok : Bool
  deriving DecidableEq, Repr

/-- Outcome of App's `/auth/session` fetch: a resolved response with an
HTTP status and an optionally JSON-parsable body (`none` models
`res.json()` rejecting, which the code replaces by `{}`), or a rejected
fetch caught by the surrounding `catch`. -/
inductive SessionFetch where
  | response (status : Nat) (body : Option SessionBody)
  | thrown
  deriving DecidableEq, Repr

/-- Whether an HTTP status is a 2xx success (what `res.ok` reports). -/
def is2xx (status : Nat) : Bool := 200 ≤ status && status < 300

/-- The value App stores in `isLoggedIn` after the session fetch settles:
the code computes `!!data?.ok` from `await res.json().catch(() => ({}))`
and never consults `res.ok` or the HTTP status; a thrown fetch sets
`false` in the `catch` branch. -/
def appIsLoggedIn : SessionFetch → Bool
  | .response _ (some b) => b.ok
  | .response _ none => false
  | .thrown => false

/-! ### Route tables (part_001: App and the standalone AppRouter) -/

/-- A route element: one of the five pages, or a `Navigate` redirect
with its target and `replace` flag. Component props other than the
`Navigate` target are presentational and not modelled. -/
inductive Elem where
  | loginPage
  | homePage
  | chatBotPage
  | patientInfoPage
  | feedbackPage
  | navigateTo (target : String) (replace : Bool)
  deriving DecidableEq, Repr

/-- One `<Route path element>` entry. -/
structure Route where
  path : String
  element : Elem
  deriving DecidableEq, Repr

/-- Routes App renders before login (part_001 lines 84-91). -/
def appAnonRoutes : List Route :=
  [{ path := "/", element := Elem.loginPage },
   { path := "*", element := Elem.navigateTo "/" true }]

/-- Routes App renders after login (part_001 lines 93-108). -/
def appAuthedRoutes : List Route :=
  [{ path := "/", element := Elem.homePage },
   { path := "/home", element := Elem.homePage },
   { path := "/chat", element := Elem.chatBotPage },
   { path := "/patient", element := Elem.navigateTo "/patient/25-0000032" true },
   { path := "/patient/:patientId", element := Elem.patientInfoPage },
   { path := "/feedback", element := Elem.feedbackPage },
   { path := "*", element := Elem.navigateTo "/" true }]

/-- Route table of the standalone AppRouter (part_001, src/routes/Router.jsx
lines 15-29). Its wildcard entry renders LoginPage directly. -/
def appRouterRoutes : List Route :=
  [{ path := "/", element := Elem.loginPage },
   { path := "/home", element := Elem.homePage },
   { path := "/chat", element := Elem.chatBotPage },
   { path := "/patient-info", element := Elem.patientInfoPage },
   { path := "/feedback", element := Elem.feedbackPage },
   { path := "*", element := Elem.loginPage }]

/-- Whether a single route-pattern segment accepts a path segment: a
dynamic `:param` segment accepts any non-empty segment, a static segment
requires equality. -/
def segMatches (pat seg : String) : Bool :=
  match pat.toList with
  | ':' :: _ => !seg.isEmpty
  | _ => pat == seg

/-- Whether a route pattern matches a concrete path: the wildcard `*`
matches every path; otherwise the slash-separated segments must agree
pairwise. For the route tables above (wildcard listed last), first match
in table order agrees with the router's ranking. -/
def patMatches (pat path : String) : Bool :=
  pat == "*" ||
    (let ps := splitSegs pat
     let ss := splitSegs path
     ps.length == ss.length && (List.zip ps ss).all fun q => segMatches q.1 q.2)

/-- The route a table selects for a path: the first entry whose pattern
matches. -/
def matchRoute (rs : List Route) (path : String) : Option Route :=
  rs.find? fun r => patMatches r.path path

/-- What App renders: the loading placeholder, or a router (with its
basename) over one of the two route tables. -/
inductive AppView where
  | loading
  | router (basename : String) (routes : List Route)
  deriving DecidableEq, Repr

/-- App component state: the two `useState` booleans. -/
structure AppState where
  authChecked : Bool
  isLoggedIn : Bool
  deriving DecidableEq, Repr

/-- App's initial state: `useState(false)` twice (part_001 lines 57-58). -/
def appInitialState : AppState :=
  { authChecked := false, isLoggedIn := false }

/-- App state after the startup session fetch settles: the `finally`
block sets `authChecked := true` in every case, and `isLoggedIn` is set
per `appIsLoggedIn` (part_001 lines 61-75). -/
def appSessionEffect (f : SessionFetch) : AppState :=
  { authChecked := true, isLoggedIn := appIsLoggedIn f }

/-- App's render function (part_001 lines 77-111): the loading `div`
until `authChecked`, then a router over the anonymous or authenticated
table chosen by `isLoggedIn`. -/
def appRender (st : AppState) : AppView :=
  if !st.authChecked then AppView.loading
  else AppView.router "/AIChatbotProject"
    (if !st.isLoggedIn then appAnonRoutes else appAuthedRoutes)

/-! ### Session-aware Header: whoami fetch (part_000 lines 22-44) -/

/-- Parsed whoami body. `logged_in` holds the truthiness of
`data?.logged_in`; the profile fields are `none` when absent or falsy
(for the three strings, a falsy present value and an absent one coincide
after the code's `|| ""` defaulting); `id` is the raw optional field. -/
structure WhoamiBody where
  logged_in : Bool
  email : Option String
  nickname : Option String
  profile_image : Option String
  id : Option Nat
  deriving DecidableEq, Repr

/-- Outcome of the whoami fetch: a resolved response carrying `res.ok`
and an optionally JSON-parsable body (`none` models `res.json()`
throwing, which lands in the `catch`), or a rejected fetch. -/
inductive WhoamiFetch where
  | response (resOk : Bool) (body : Option WhoamiBody)
  | thrown
  deriving DecidableEq, Repr

/-- The Header view model built from a successful whoami response. -/
structure UserInfo where
  email : String
  nickname : String
  profile_image : String
  id : Option Nat
  deriving DecidableEq, Repr

/-- The value `fetchUserInfo` stores in `userInfo` for a given fetch
outcome (part_000 lines 23-44): `none` on a non-ok response, an
unparsable body, a falsy `logged_in`, or a thrown fetch; otherwise the
projected profile with `|| ""` defaults and the raw `id`. The previous
state is never read. -/
def fetchUserInfo : WhoamiFetch → Option UserInfo
  | .response true (some b) =>
      if b.logged_in then
        some { email := b.email.getD "",
               nickname := b.nickname.getD "",
               profile_image := b.profile_image.getD "",
               id := b.id }
      else none
  | .response true none => none
  | .response false _ => none
  | .thrown => none

/-- The display initial (part_000 lines 61-62): the JS expression
`(userInfo?.nickname && userInfo.nickname.trim().charAt(0)) || "U"`. -/
def initialChar (userInfo : Option UserInfo) : String :=
  match userInfo with
  | none => "U"
  | some u =>
      if !u.nickname.isEmpty then
        let c := charAt0 (jsTrim u.nickname)
        if !c.isEmpty then c else "U"
      else "U"

/-! ### AuthActions (src/components/AuthActions.jsx lines 10-33) -/

/-- Observable events of an AuthActions handler run: a fetch request
(method, full URL, whether credentials are included), a console error
log, and the three callback invocations. -/
inductive AEv where
  | fetch (method url : String) (credsInclude : Bool)
  | consoleError
  | onDoneEv
  | onLogoutEv
  | onUnlinkEv
  deriving DecidableEq, Repr

/-- Outcome of the single fetch inside `call`: resolved with `res.ok`
true, resolved with `res.ok` false, or rejected. -/
inductive CallOutcome where
  | okResp
  | notOkResp
  | thrownFetch
  deriving DecidableEq, Repr

/-- Whether an event is a fetch request. -/
def AEv.isFetch : AEv → Bool
  | .fetch _ _ _ => true
  | _ => false

/-- The `call` helper (AuthActions.jsx lines 10-23): issues one fetch to
`API_BASE + path` with the given method and credentials included,
returns `res.ok`, returns `false` after logging when the fetch throws,
and invokes `onDone` (when supplied) in the `finally` block in every
case. Result: the returned boolean and the event trace in order. -/
def call (apiBase path method : String) (o : CallOutcome)
    (hasOnDone : Bool) : Bool × List AEv :=
  let fetchEv := AEv.fetch method (apiBase ++ path) true
  let doneEvs := if hasOnDone then [AEv.onDoneEv] else []
  match o with
  | .okResp => (true, fetchEv :: doneEvs)
  | .notOkResp => (false, fetchEv :: doneEvs)
  | .thrownFetch => (false, fetchEv :: AEv.consoleError :: doneEvs)

/-- The logout handler (AuthActions.jsx lines 25-28): awaits
`call "/auth/kakao/logout" "POST"`, then invokes `onLogout` when
supplied. -/
def handleLogout (apiBase : String) (o : CallOutcome)
    (hasOnDone hasOnLogout : Bool) : List AEv :=
  (call apiBase "/auth/kakao/logout" "POST" o hasOnDone).2 ++
    (if hasOnLogout then [AEv.onLogoutEv] else [])

/-- The unlink handler (AuthActions.jsx lines 30-33): awaits
`call "/auth/kakao/unlink" "POST"`, then invokes `onUnlink` when
supplied. -/
def handleUnlink (apiBase : String) (o : CallOutcome)
    (hasOnDone hasOnUnlink : Bool) : List AEv :=
  (call apiBase "/auth/kakao/unlink" "POST" o hasOnDone).2 ++
    (if hasOnUnlink then [AEv.onUnlinkEv] else [])

/-! ### Legacy Header handlers (src/components/Header.jsx lines 11-38) -/

/-- Observable events of a legacy Header handler run. -/
inductive LEv where
  | fetch (method url : String) (credsInclude : Bool)
  | consoleError
  | clearLocalStorage
  | navigateTo (target : String) (replace : Bool)
  deriving DecidableEq, Repr

/-- Outcome of a legacy handler's fetch: resolved with some `res.ok`
value (the code never reads it), or rejected. -/
inductive LegacyOutcome where
  | resolved (ok : Bool)
  | thrown
  deriving DecidableEq, Repr

/-- Whether a legacy event is a fetch request. -/
def LEv.isFetch : LEv → Bool
  | .fetch _ _ _ => true
  | _ => false

/-- The legacy logout handler (Header.jsx lines 11-24): one GET to
`API_BASE ++ "/logout"` with credentials included; a thrown fetch is
logged; the `finally` block clears local storage and navigates to `/`
with `replace` in every case. -/
def legacyHandleLogout (apiBase : String) (o : LegacyOutcome) : List LEv :=
  LEv.fetch "GET" (apiBase ++ "/logout") true ::
    (match o with
     | .thrown => [LEv.consoleError]
     | .resolved _ => []) ++
    [LEv.clearLocalStorage, LEv.navigateTo "/" true]

/-- The legacy unlink handler (Header.jsx lines 26-38): one GET to
`API_BASE ++ "/unlink"` with credentials included; otherwise identical
to the logout handler. -/
def legacyHandleUnlink (apiBase : String) (o : LegacyOutcome) : List LEv :=
  LEv.fetch "GET" (apiBase ++ "/unlink") true ::
    (match o with
     | .thrown => [LEv.consoleError]
     | .resolved _ => []) ++
    [LEv.clearLocalStorage, LEv.navigateTo "/" true]

/-! ### Helper lemmas -/

/-- The head of `dropWhile p l` never satisfies `p`. -/
theorem dropWhile_head_false (p : Char → Bool) :
    ∀ (l : List Char) (c : Char) (cs : List Char),
      List.dropWhile p l = c :: cs → p c = false := by
  intro l
  induction l with
  | nil => intro c cs h; simp [List.dropWhile] at h
  | cons a as ih =>
      intro c cs h
      rw [List.dropWhile_cons] at h
      by_cases hpa : p a = true
      · rw [if_pos hpa] at h
        exact ih c cs h
      · rw [if_neg hpa] at h
        cases h
        simpa using hpa

/-- Stripping trailing slashes leaves no trailing slash. -/
theorem hasTrailingSlash_strip (s : String) :
    hasTrailingSlash (stripTrailingSlashes s) = false := by
  have htl : (stripTrailingSlashes s).toList
      = (s.toList.reverse.dropWhile (fun c => c == '/')).reverse := rfl
  rw [hasTrailingSlash, htl, List.reverse_reverse]
  rcases hd : s.toList.reverse.dropWhile (fun c => c == '/') with _ | ⟨c, cs⟩
  · rfl
  · have hc := dropWhile_head_false (fun c => c == '/') _ c cs hd
    simpa using hc

/-- The two constant bases carry no trailing slash. -/
theorem hasTrailingSlash_bases :
    hasTrailingSlash renderBase = false ∧ hasTrailingSlash localBase = false := by
  constructor <;> rfl

/-- The wildcard pattern matches every path. -/
theorem patMatches_wildcard (path : String) : patMatches "*" path = true := rfl

/-- The deployed default base has no trailing slash. -/
theorem hasTrailingSlash_renderBase : hasTrailingSlash renderBase = false := rfl

/-- The local default base has no trailing slash. -/
theorem hasTrailingSlash_localBase : hasTrailingSlash localBase = false := rfl

/-- Rendering the initial for the anonymous state gives the placeholder. -/
theorem initialChar_none : initialChar none = "U" := rfl

/-- When the trimmed nickname is empty, the initial is the placeholder. -/
theorem initialChar_of_trim_nil (u : UserInfo)
    (h : (jsTrim u.nickname).toList = []) : initialChar (some u) = "U" := by
  have hc : charAt0 (jsTrim u.nickname) = "" := by
    unfold charAt0; rw [h]
  have he : ("" : String).isEmpty = true := rfl
  by_cases hn : u.nickname.isEmpty
  · simp [initialChar, hn]
  · simp [initialChar, hn, hc, he]

/-- When the trimmed nickname is non-empty, the initial is its first
character. -/
theorem initialChar_of_trim_cons (u : UserInfo) (c : Char) (cs : List Char)
    (h : (jsTrim u.nickname).toList = c :: cs) :
    initialChar (some u) = String.mk [c] := by
  have hc : charAt0 (jsTrim u.nickname) = String.mk [c] := by
    unfold charAt0; rw [h]
  have hn : u.nickname.isEmpty = false := by
    by_contra hcon
    have h2 : u.nickname.isEmpty = true := by simpa using hcon
    rw [String.isEmpty_iff] at h2
    rw [h2] at h
    rw [show (jsTrim "").toList = ([] : List Char) from rfl] at h
    cases h
  have hm : (String.mk [c]).isEmpty = false := by
    by_contra hcon
    have h2 : (String.mk [c]).isEmpty = true := by simpa using hcon
    rw [String.isEmpty_iff] at h2
    have h3 : ([c] : List Char) = [] := congrArg String.toList h2
    cases h3
  simp [initialChar, hn, hc, hm]

/-- The rendered initial is always exactly one character long. -/
theorem initialChar_some_length (u : UserInfo) :
    (initialChar (some u)).toList.length = 1 := by
  rcases hl : (jsTrim u.nickname).toList with _ | ⟨c, cs⟩
  · rw [initialChar_of_trim_nil u hl]; rfl
  · rw [initialChar_of_trim_cons u c cs hl]; rfl

/-! ### Claims -/

/-- C6, counterexample: in the standalone AppRouter a path matched by no
listed route lands on the wildcard entry, whose element is LoginPage
rendered directly — not a redirect to `/`. -/
theorem c6_counterexample :
    matchRoute appRouterRoutes "/no-such-page"
      = some { path := "*", element := Elem.loginPage } ∧
    ({ path := "*", element := Elem.loginPage } : Route)
      ≠ { path := "*", element := Elem.navigateTo "/" true } := by
  exact ⟨by decide, by decide⟩

/-- C6, amended: for every path matched by no non-wildcard route, App's
anonymous and authenticated tables select the wildcard redirect
`Navigate` to `/` with replace, while the standalone AppRouter's table
selects the wildcard entry rendering LoginPage directly. -/
theorem c6_wildcard_routes :
    (∀ path : String,
        (∀ r ∈ appAnonRoutes, r.path ≠ "*" → patMatches r.path path = false) →
        matchRoute appAnonRoutes path
          = some { path := "*", element := Elem.navigateTo "/" true }) ∧
    (∀ path : String,
        (∀ r ∈ appAuthedRoutes, r.path ≠ "*" → patMatches r.path path = false) →
        matchRoute appAuthedRoutes path
          = some { path := "*", element := Elem.navigateTo "/" true }) ∧
    (∀ path : String,
        (∀ r ∈ appRouterRoutes, r.path ≠ "*" → patMatches r.path path = false) →
        matchRoute appRouterRoutes path
          = some { path := "*", element := Elem.loginPage }) := by
  refine ⟨fun path h => ?_, fun path h => ?_, fun path h => ?_⟩
  · have h1 : patMatches "/" path = false :=
      h { path := "/", element := Elem.loginPage }
        (by simp [appAnonRoutes]) (by decide)
    simp only [matchRoute, appAnonRoutes]
    rw [List.find?_cons_of_neg _ (by simp [h1]),
        List.find?_cons_of_pos _ (by simp [patMatches_wildcard])]
  · have h1 : patMatches "/" path = false :=
      h { path := "/", element := Elem.homePage }
        (by simp [appAuthedRoutes]) (by decide)
    have h2 : patMatches "/home" path = false :=
      h { path := "/home", element := Elem.homePage }
        (by simp [appAuthedRoutes]) (by decide)
    have h3 : patMatches "/chat" path = false :=
      h { path := "/chat", element := Elem.chatBotPage }
        (by simp [appAuthedRoutes]) (by decide)
    have h4 : patMatches "/patient" path = false :=
      h { path := "/patient", element := Elem.navigateTo "/patient/25-0000032" true }
        (by simp [appAuthedRoutes]) (by decide)
    have h5 : patMatches "/patient/:patientId" path = false :=
      h { path := "/patient/:patientId", element := Elem.patientInfoPage }
        (by simp [appAuthedRoutes]) (by decide)
    have h6 : patMatches "/feedback" path = false :=
      h { path := "/feedback", element := Elem.feedbackPage }
        (by simp [appAuthedRoutes]) (by decide)
    simp only [matchRoute, appAuthedRoutes]
    rw [List.find?_cons_of_neg _ (by simp [h1]),
        List.find?_cons_of_neg _ (by simp [h2]),
        List.find?_cons_of_neg _ (by simp [h3]),
        List.find?_cons_of_neg _ (by simp [h4]),
        List.find?_cons_of_neg _ (by simp [h5]),
        List.find?_cons_of_neg _ (by simp [h6]),
        List.find?_cons_of_pos _ (by simp [patMatches_wildcard])]
  · have h1 : patMatches "/" path = false :=
      h { path := "/", element := Elem.loginPage }
        (by simp [appRouterRoutes]) (by decide)
    have h2 : patMatches "/home" path = false :=
      h { path := "/home", element := Elem.homePage }
        (by simp [appRouterRoutes]) (by decide)
    have h3 : patMatches "/chat" path = false :=
      h { path := "/chat", element := Elem.chatBotPage }
        (by simp [appRouterRoutes]) (by decide)
    have h4 : patMatches "/patient-info" path = false :=
      h { path := "/patient-info", element := Elem.patientInfoPage }
        (by simp [appRouterRoutes]) (by decide)
    have h5 : patMatches "/feedback" path = false :=
      h { path := "/feedback", element := Elem.feedbackPage }
        (by simp [appRouterRoutes]) (by decide)
    simp only [matchRoute, appRouterRoutes]
    rw [List.find?_cons_of_neg _ (by simp [h1]),
        List.find?_cons_of_neg _ (by simp [h2]),
        List.find?_cons_of_neg _ (by simp [h3]),
        List.find?_cons_of_neg _ (by simp [h4]),
        List.find?_cons_of_neg _ (by simp [h5]),
        List.find?_cons_of_pos _ (by simp [patMatches_wildcard])]

/-- C6, witness: the unlisted path `/nope` selects the wildcard entry of
each of the three tables. -/
theorem c6_wildcard_routes_witness :
    matchRoute appAnonRoutes "/nope"
      = some { path := "*", element := Elem.navigateTo "/" true } ∧
    matchRoute appAuthedRoutes "/nope"
      = some { path := "*", element := Elem.navigateTo "/" true } ∧
    matchRoute appRouterRoutes "/nope"
      = some { path := "*", element := Elem.loginPage } :=
  ⟨c6_wildcard_routes.1 "/nope" (by decide),
   c6_wildcard_routes.2.1 "/nope" (by decide),
   c6_wildcard_routes.2.2 "/nope" (by decide)⟩

/-- C7, counterexample: the legacy Header's API_BASE keeps a trailing
slash of the environment override verbatim, so not every component
strips trailing slashes. -/
theorem c7_counterexample :
    headerLegacyApiBase (some "https://api.example.com/")
      = "https://api.example.com/" ∧
    hasTrailingSlash "https://api.example.com/" = true := by
  exact ⟨rfl, rfl⟩

/-- C7, amended: a truthy environment override takes precedence in every
component — App and (when its stripped value is non-empty) AuthActions
and the session-aware Header use the override with trailing slashes
stripped, the legacy Header uses it verbatim without stripping; with no
override each component falls back to its default (hostname-based for
App, fixed for the others); and the three stripping components never
produce a trailing slash, while the legacy Header can. -/
theorem c7_api_base :
    (∀ (s : String) (hostname : Option String), jsTruthyStr (some s) = true →
        appApiBase (some s) hostname = stripTrailingSlashes s) ∧
    (∀ s : String, jsTruthyStr (some s) = true →
        (stripTrailingSlashes s).isEmpty = false →
        authActionsApiBase (some s) = stripTrailingSlashes s) ∧
    (∀ s : String, jsTruthyStr (some s) = true →
        (stripTrailingSlashes s).isEmpty = false →
        sessionHeaderApiBase (some s) = stripTrailingSlashes s) ∧
    (∀ s : String, jsTruthyStr (some s) = true →
        headerLegacyApiBase (some s) = s) ∧
    (∀ env hostname, hasTrailingSlash (appApiBase env hostname) = false) ∧
    (∀ env, hasTrailingSlash (authActionsApiBase env) = false) ∧
    (∀ env, hasTrailingSlash (sessionHeaderApiBase env) = false) ∧
    headerLegacyApiBase none = renderBase ∧
    appApiBase none (some "cnrkddl.github.io") = renderBase ∧
    appApiBase none (some "localhost") = localBase ∧
    appApiBase none none = localBase ∧
    authActionsApiBase none = renderBase := by
  have hAA : ∀ env, hasTrailingSlash (authActionsApiBase env) = false := by
    intro env
    match env with
    | none => rfl
    | some s =>
        by_cases h1 : s.isEmpty
        · simp [authActionsApiBase, h1, hasTrailingSlash_renderBase]
        · by_cases h2 : (stripTrailingSlashes s).isEmpty
          · simp [authActionsApiBase, h1, h2, hasTrailingSlash_renderBase]
          · simp [authActionsApiBase, h1, h2, hasTrailingSlash_strip]
  have hOv : ∀ s : String, jsTruthyStr (some s) = true →
      (stripTrailingSlashes s).isEmpty = false →
      authActionsApiBase (some s) = stripTrailingSlashes s := by
    intro s hs h2
    have hs' : s.isEmpty = false := by simpa [jsTruthyStr] using hs
    simp [authActionsApiBase, hs', h2]
  refine ⟨fun s hostname hs => ?_, hOv, fun s hs h2 => hOv s hs h2,
    fun s hs => ?_, fun env hostname => hasTrailingSlash_strip _, hAA,
    fun env => hAA env, rfl, rfl, rfl, rfl, rfl⟩
  · have hs' : s.isEmpty = false := by simpa [jsTruthyStr] using hs
    simp [appApiBase, hs']
  · have hs' : s.isEmpty = false := by simpa [jsTruthyStr] using hs
    simp [headerLegacyApiBase, hs']

/-- C7, witness: a truthy override ending in a slash is used (stripped)
by App, AuthActions and the session-aware Header, and a truthy override
is returned verbatim by the legacy Header resolution. -/
theorem c7_api_base_witness :
    appApiBase (some "https://api.example.com/") (some "localhost")
      = "https://api.example.com" ∧
    authActionsApiBase (some "https://api.example.com/")
      = "https://api.example.com" ∧
    sessionHeaderApiBase (some "https://api.example.com/")
      = "https://api.example.com" ∧
    headerLegacyApiBase (some "https://api.example.com")
      = "https://api.example.com" :=
  ⟨c7_api_base.1 "https://api.example.com/" (some "localhost") (by decide),
   c7_api_base.2.1 "https://api.example.com/" (by decide) (by decide),
   c7_api_base.2.2.1 "https://api.example.com/" (by decide) (by decide),
   c7_api_base.2.2.2.1 "https://api.example.com" (by decide)⟩

/-- C9: the rendered initial is always exactly one character; it is the
placeholder `U` for the anonymous state and whenever the trimmed
nickname is empty (absent, empty or whitespace-only nickname), and it is
the first character of the trimmed nickname otherwise. -/
theorem c9_initial_char :
    (∀ u : UserInfo, (initialChar (some u)).toList.length = 1) ∧
    (∀ u : UserInfo, (jsTrim u.nickname).toList = [] →
        initialChar (some u) = "U") ∧
    (∀ (u : UserInfo) (c : Char) (cs : List Char),
        (jsTrim u.nickname).toList = c :: cs →
        initialChar (some u) = String.mk [c]) ∧
    initialChar none = "U" :=
  ⟨initialChar_some_length, initialChar_of_trim_nil,
   initialChar_of_trim_cons, initialChar_none⟩

/-- C9, witness: a whitespace-only nickname falls back to the
placeholder, and a nickname with leading whitespace yields its first
non-whitespace character. -/
theorem c9_initial_char_witness :
    initialChar (some { email := "", nickname := "   ",
                        profile_image := "", id := none }) = "U" ∧
    initialChar (some { email := "", nickname := " Kim",
                        profile_image := "", id := none }) = String.mk ['K'] :=
  ⟨c9_initial_char.2.1
      { email := "", nickname := "   ", profile_image := "", id := none }
      (by decide),
   c9_initial_char.2.2.1
      { email := "", nickname := " Kim", profile_image := "", id := none }
      'K' ['i', 'm'] (by decide)⟩

/-- C1, counterexample: App's session check ignores the HTTP status.
A non-2xx (404) response whose parsed body has a truthy `ok` field sets
`isLoggedIn = true`, refuting the claim that a non-2xx status degrades
App to the anonymous state. -/
theorem c1_counterexample :
    appIsLoggedIn (SessionFetch.response 404 (some { ok := true })) = true ∧
    is2xx 404 = false := by
  constructor <;> rfl

/-- C1, amended: App sets `isLoggedIn` to the truthiness of the parsed
body's `ok` field, for every HTTP status alike; a rejected fetch or an
unparsable body yields `isLoggedIn = false`. -/
theorem c1_ok_field_decides_login :
    (∀ (status : Nat) (b : SessionBody),
        appIsLoggedIn (SessionFetch.response status (some b)) = b.ok) ∧
    (∀ status : Nat,
        appIsLoggedIn (SessionFetch.response status none) = false) ∧
    appIsLoggedIn SessionFetch.thrown = false := by
  exact ⟨fun _ _ => rfl, fun _ => rfl, rfl⟩

/-- C2: the Header whoami fetch yields `userInfo = none` on a non-ok
response, a thrown fetch, an unparsable body, or a falsy `logged_in`;
and on an ok response with truthy `logged_in` it yields the projected
profile (strings defaulted by the code's `|| ""`, raw `id`). The
previous state is not an input of `fetchUserInfo`, so every outcome
overwrites it. -/
theorem c2_whoami_state :
    (∀ body, fetchUserInfo (WhoamiFetch.response false body) = none) ∧
    fetchUserInfo WhoamiFetch.thrown = none ∧
    fetchUserInfo (WhoamiFetch.response true none) = none ∧
    (∀ b : WhoamiBody, b.logged_in = false →
        fetchUserInfo (WhoamiFetch.response true (some b)) = none) ∧
    (∀ b : WhoamiBody, b.logged_in = true →
        fetchUserInfo (WhoamiFetch.response true (some b)) =
          some { email := b.email.getD "",
                 nickname := b.nickname.getD "",
                 profile_image := b.profile_image.getD "",
                 id := b.id }) := by
  refine ⟨fun body => ?_, rfl, rfl, fun b hb => ?_, fun b hb => ?_⟩
  · cases body <;> rfl
  · simp [fetchUserInfo, hb]
  · simp [fetchUserInfo, hb]

/-- C2, witness at concrete bodies: a falsy `logged_in` yields the
anonymous state, a truthy one yields the projected profile. -/
theorem c2_whoami_state_witness :
    fetchUserInfo (WhoamiFetch.response true
      (some { logged_in := false, email := some "a@b.c", nickname := none,
              profile_image := none, id := some 1 })) = none ∧
    fetchUserInfo (WhoamiFetch.response true
      (some { logged_in := true, email := some "a@b.c", nickname := some "Kim",
              profile_image := none, id := some 7 })) =
      some { email := "a@b.c", nickname := "Kim", profile_image := "",
             id := some 7 } := by
  exact ⟨c2_whoami_state.2.2.2.1
      { logged_in := false, email := some "a@b.c", nickname := none,
        profile_image := none, id := some 1 } rfl,
    c2_whoami_state.2.2.2.2
      { logged_in := true, email := some "a@b.c", nickname := some "Kim",
        profile_image := none, id := some 7 } rfl⟩

/-- C3, counterexample: for a logged-in body with every optional field
missing, the produced UserInfo leaves `id` absent (`none`) instead of
defaulting it to a safe value — the code copies `data.id` verbatim. -/
theorem c3_counterexample :
    Option.map UserInfo.id (fetchUserInfo (WhoamiFetch.response true
      (some { logged_in := true, email := none, nickname := none,
              profile_image := none, id := none }))) = some none := rfl

/-- C3, amended: on a logged-in body the string fields email, nickname
and profile_image are defaulted to the empty string when missing, while
`id` is copied verbatim and stays absent when missing. -/
theorem c3_string_defaults :
    ∀ b : WhoamiBody, b.logged_in = true →
      Option.map UserInfo.email
          (fetchUserInfo (WhoamiFetch.response true (some b)))
        = some (b.email.getD "") ∧
      Option.map UserInfo.nickname
          (fetchUserInfo (WhoamiFetch.response true (some b)))
        = some (b.nickname.getD "") ∧
      Option.map UserInfo.profile_image
          (fetchUserInfo (WhoamiFetch.response true (some b)))
        = some (b.profile_image.getD "") ∧
      Option.map UserInfo.id
          (fetchUserInfo (WhoamiFetch.response true (some b)))
        = some b.id := by
  intro b hb
  simp [fetchUserInfo, hb]

/-- C3, witness at a concrete body with missing email and image: the
strings come out empty, the nickname is kept, `id` is passed through. -/
theorem c3_string_defaults_witness :
    Option.map UserInfo.email (fetchUserInfo (WhoamiFetch.response true
        (some { logged_in := true, email := none, nickname := some "Kim",
                profile_image := none, id := some 5 }))) = some "" ∧
    Option.map UserInfo.nickname (fetchUserInfo (WhoamiFetch.response true
        (some { logged_in := true, email := none, nickname := some "Kim",
                profile_image := none, id := some 5 }))) = some "Kim" ∧
    Option.map UserInfo.profile_image (fetchUserInfo (WhoamiFetch.response true
        (some { logged_in := true, email := none, nickname := some "Kim",
                profile_image := none, id := some 5 }))) = some "" ∧
    Option.map UserInfo.id (fetchUserInfo (WhoamiFetch.response true
        (some { logged_in := true, email := none, nickname := some "Kim",
                profile_image := none, id := some 5 }))) = some (some 5) :=
  c3_string_defaults
    { logged_in := true, email := none, nickname := some "Kim",
      profile_image := none, id := some 5 } rfl

/-- C4: with an `onDone` callback supplied (as Header always does), the
logout handler's trace contains exactly one fetch — a POST to
`API_BASE ++ "/auth/kakao/logout"` with credentials included — and
invokes `onDone` whether the response is ok, not ok, or the fetch
throws; a thrown fetch is logged and `call` returns `false` instead of
propagating. -/
theorem c4_logout_single_post_and_done :
    ∀ (apiBase : String) (o : CallOutcome),
      (handleLogout apiBase o true true).filter AEv.isFetch =
        [AEv.fetch "POST" (apiBase ++ "/auth/kakao/logout") true] ∧
      AEv.onDoneEv ∈ handleLogout apiBase o true true ∧
      (call apiBase "/auth/kakao/logout" "POST" CallOutcome.thrownFetch true).1
        = false ∧
      AEv.consoleError ∈
        (call apiBase "/auth/kakao/logout" "POST" CallOutcome.thrownFetch true).2 := by
  intro apiBase o
  refine ⟨?_, ?_, rfl, ?_⟩
  · cases o <;> simp [handleLogout, call, AEv.isFetch, List.filter]
  · cases o <;> simp [handleLogout, call]
  · simp [call]

/-- C5: App renders the loading placeholder (no router, no routes)
whenever `authChecked` is false — in particular in its initial state —
every settled session fetch sets `authChecked := true`, and a falsy
result makes App render exactly the anonymous route set: LoginPage at
`/` plus the catch-all redirect to `/`. -/
theorem c5_auth_gate :
    (∀ b : Bool, appRender { authChecked := false, isLoggedIn := b }
        = AppView.loading) ∧
    appRender appInitialState = AppView.loading ∧
    (∀ f : SessionFetch, (appSessionEffect f).authChecked = true) ∧
    (∀ f : SessionFetch, appIsLoggedIn f = false →
        appRender (appSessionEffect f)
          = AppView.router "/AIChatbotProject" appAnonRoutes) ∧
    appAnonRoutes =
      [{ path := "/", element := Elem.loginPage },
       { path := "*", element := Elem.navigateTo "/" true }] := by
  refine ⟨fun b => rfl, rfl, fun f => rfl, fun f hf => ?_, rfl⟩
  simp [appRender, appSessionEffect, hf]

/-- C5, witness: a thrown session fetch settles the check and renders
the anonymous route set. -/
theorem c5_auth_gate_witness :
    appRender (appSessionEffect SessionFetch.thrown)
      = AppView.router "/AIChatbotProject" appAnonRoutes :=
  c5_auth_gate.2.2.2.1 SessionFetch.thrown rfl

/-- C8: each legacy Header handler issues exactly one GET — to
`API_BASE ++ "/logout"` resp. `API_BASE ++ "/unlink"`, credentials
included — and its trace ends with clearing local storage followed by a
replace-navigation to `/`, for a resolved response of either ok value
and for a thrown fetch alike. -/
theorem c8_legacy_handlers :
    ∀ (apiBase : String) (o : LegacyOutcome),
      (legacyHandleLogout apiBase o).filter LEv.isFetch =
        [LEv.fetch "GET" (apiBase ++ "/logout") true] ∧
      (legacyHandleUnlink apiBase o).filter LEv.isFetch =
        [LEv.fetch "GET" (apiBase ++ "/unlink") true] ∧
      (∃ pre, legacyHandleLogout apiBase o =
          pre ++ [LEv.clearLocalStorage, LEv.navigateTo "/" true]) ∧
      (∃ pre, legacyHandleUnlink apiBase o =
          pre ++ [LEv.clearLocalStorage, LEv.navigateTo "/" true]) := by
  intro apiBase o
  refine ⟨?_, ?_, ?_, ?_⟩
  · cases o <;> simp [legacyHandleLogout, LEv.isFetch, List.filter]
  · cases o <;> simp [legacyHandleUnlink, LEv.isFetch, List.filter]
  · cases o with
    | resolved ok =>
        exact ⟨[LEv.fetch "GET" (apiBase ++ "/logout") true], rfl⟩
    | thrown =>
        exact ⟨[LEv.fetch "GET" (apiBase ++ "/logout") true,
                LEv.consoleError], rfl⟩
  · cases o with
    | resolved ok =>
        exact ⟨[LEv.fetch "GET" (apiBase ++ "/unlink") true], rfl⟩
    | thrown =>
        exact ⟨[LEv.fetch "GET" (apiBase ++ "/unlink") true,
                LEv.consoleError], rfl⟩

/-- C10: with both callbacks supplied, the logout handler's trace ends
with `onDone` immediately followed by `onLogout` — so `onDone` (run in
the `finally` block of `call`) is invoked strictly before `onLogout`
(run after the handler's `await` resumes) — and likewise for unlink,
for every fetch outcome. -/
theorem c10_done_before_action :
    ∀ (apiBase : String) (o : CallOutcome),
      (∃ pre, handleLogout apiBase o true true =
          pre ++ [AEv.onDoneEv, AEv.onLogoutEv]) ∧
      (∃ pre, handleUnlink apiBase o true true =
          pre ++ [AEv.onDoneEv, AEv.onUnlinkEv]) := by
  intro apiBase o
  cases o with
  | okResp =>
      exact ⟨⟨[AEv.fetch "POST" (apiBase ++ "/auth/kakao/logout") true], rfl⟩,
             ⟨[AEv.fetch "POST" (apiBase ++ "/auth/kakao/unlink") true], rfl⟩⟩
  | notOkResp =>
      exact ⟨⟨[AEv.fetch "POST" (apiBase ++ "/auth/kakao/logout") true], rfl⟩,
             ⟨[AEv.fetch "POST" (apiBase ++ "/auth/kakao/unlink") true], rfl⟩⟩
  | thrownFetch =>
      exact ⟨⟨[AEv.fetch "POST" (apiBase ++ "/auth/kakao/logout") true,
               AEv.consoleError], rfl⟩,
             ⟨[AEv.fetch "POST" (apiBase ++ "/auth/kakao/unlink") true,
               AEv.consoleError], rfl⟩⟩

end AIChatbot
